import Mathlib

/-!
Shallow embedding of the batch-orchestration and observability core of the
AAQ backend: the batch orchestrator (`app/core/strategy/trading_strategy.py`
and `app/core/strategy/models.py`) and the observability collector
(`app/core/tradingagents/graph/timing_callback.py`), together with theorems
settling the specification claims about them.

Machine conventions: Python strings are `String`, Python floats that carry
wall-clock times and confidences are `ℚ`, token counts are `Int`, Python
dicts that are only read by key are association lists.
-/

namespace AAQ

/-! ## Small dictionary helpers (Python dict read/pop semantics) -/

/-- Lookup of a key in an association list (Python `d.get(k)` / `d[k]`). -/
def dlookup {β : Type} : List (String × β) → String → Option β
  | [], _ => none
  | (k, v) :: rest, key => if k = key then some v else dlookup rest key

/-- Python `d.get(k, default)`. -/
def dget {β : Type} (d : List (String × β)) (key : String) (dflt : β) : β :=
  (dlookup d key).getD dflt

/-- Remove a key from an association list. -/
def dremove {β : Type} : List (String × β) → String → List (String × β)
  | [], _ => []
  | (k, v) :: rest, key => if k = key then dremove rest key else (k, v) :: dremove rest key

/-- Python `d.pop(k, ...)` split into the looked-up value and the remaining
dictionary; when the key is absent the dictionary is unchanged. -/
def dpop {β : Type} (d : List (String × β)) (key : String) : Option β × List (String × β) :=
  match dlookup d key with
  | none => (none, d)
  | some v => (some v, dremove d key)

/-- Python `d[k] = v`: overwrite any previous binding of the key. -/
def dset {β : Type} (d : List (String × β)) (key : String) (v : β) : List (String × β) :=
  (key, v) :: dremove d key

/-! ## Substring containment (Python `pat in text` on strings) -/

/-- Python `pat in s` on lists of characters: `pat` occurs contiguously. -/
def listContainsSub (pat : List Char) : List Char → Bool
  | [] => pat.isEmpty
  | c :: rest => pat.isPrefixOf (c :: rest) || listContainsSub pat rest

/-- Python `pat in text` for strings. -/
def containsSub (text pat : String) : Bool :=
  listContainsSub pat.toList text.toList

/-- Python `s.strip()`: drop leading and trailing whitespace. -/
def pyStrip (s : String) : String :=
  String.mk (((s.data.dropWhile Char.isWhitespace).reverse.dropWhile
    Char.isWhitespace).reverse)

/-- Python `s.upper()` (ASCII case mapping). -/
def pyUpper (s : String) : String :=
  String.mk (s.data.map Char.toUpper)

/-- Python `s.lower()` (ASCII case mapping). -/
def pyLower (s : String) : String :=
  String.mk (s.data.map Char.toLower)

/-! ## Data model (`app/core/strategy/models.py`) -/

/-- The `DecisionLiteral` values `"BUY" | "SELL" | "HOLD"`. -/
inductive Decision where
  | BUY
  | SELL
  | HOLD
  deriving Repr, DecidableEq

/-- The `signal_type` literal of `MarketSignal`. -/
inductive SignalType where
  | trend
  | opportunity
  | risk
  | alert
  deriving Repr, DecidableEq

/-- Source `SuggestedVendor` (models.py): one entity of the batch. -/
structure SuggestedVendor where
  name : String
  reason : String
  confidence : ℚ
  supporting_articles : List Int
  deriving Repr, DecidableEq

/-- Source `MarketSignal` (models.py): the batch request. -/
structure MarketSignal where
  signal_type : SignalType
  label : String
  confidence : ℚ
  supporting_articles : List Int
  suggested_vendors : List SuggestedVendor
  deriving Repr, DecidableEq

/-- Source `PropagateResultModel.normalize_decision` (models.py lines 125-133):
stringify (taken as given: the input is already the string), strip,
uppercase; `"BUY" in text` wins, then `"SELL" in text`, else `HOLD`. -/
def normalize_decision (value : String) : Decision :=
  let text := pyUpper (pyStrip value)
  if containsSub text "BUY" then Decision.BUY
  else if containsSub text "SELL" then Decision.SELL
  else Decision.HOLD

/-- Source `VendorRunResult` (models.py), parametric in the type `φ` of the
validated final state (`FinalStateModel` is opaque to the orchestrator). -/
structure VendorRunResult (φ : Type) where
  ticker : String
  analysis_date : String
  signal_type : SignalType
  signal_label : String
  vendor_reason : String
  vendor_confidence : ℚ
  decision : Decision
  final_state : φ
  deriving Repr, DecidableEq

/-- Source `StrategyBatchResult` (models.py). -/
structure StrategyBatchResult (φ : Type) where
  provider : String
  quick_model : String
  deep_model : String
  analysis_date : String
  results : List (VendorRunResult φ)
  deriving Repr, DecidableEq

/-! ## Orchestrator (`app/core/strategy/trading_strategy.py`) -/

/-- Source `StrategySettings` (trading_strategy.py lines 82-97). -/
structure StrategySettings where
  provider : String
  backend_url : String
  quick_model : String
  deep_model : String
  google_thinking_level : Option String
  openai_reasoning_effort : Option String
  research_depth : Nat
  debug : Bool
  analysis_date : String
  analysts : List String
  quick_provider : Option String := none
  quick_backend_url : Option String := none
  deep_provider : Option String := none
  deep_backend_url : Option String := none
  deriving Repr, DecidableEq

/-- The runtime configuration dict built by `build_runtime_config`
(trading_strategy.py lines 168-183): the keys the orchestrator sets,
plus `defaults` standing for the untouched `DEFAULT_CONFIG` entries. -/
structure RuntimeConfig where
  defaults : List (String × String)
  llm_provider : String
  backend_url : String
  quick_think_llm : String
  deep_think_llm : String
  google_thinking_level : Option String
  openai_reasoning_effort : Option String
  max_debate_rounds : Nat
  max_risk_discuss_rounds : Nat
  quick_think_provider : Option String
  quick_think_backend_url : Option String
  deep_think_provider : Option String
  deep_think_backend_url : Option String
  deriving Repr, DecidableEq

/-- Source `build_runtime_config` (trading_strategy.py lines 168-183);
`dflt` is the `DEFAULT_CONFIG` dict being copied. -/
def build_runtime_config (dflt : List (String × String)) (settings : StrategySettings) :
    RuntimeConfig :=
  { defaults := dflt
    llm_provider := settings.provider
    backend_url := settings.backend_url
    quick_think_llm := settings.quick_model
    deep_think_llm := settings.deep_model
    google_thinking_level := settings.google_thinking_level
    openai_reasoning_effort := settings.openai_reasoning_effort
    max_debate_rounds := settings.research_depth
    max_risk_discuss_rounds := settings.research_depth
    quick_think_provider := settings.quick_provider
    quick_think_backend_url := settings.quick_backend_url
    deep_think_provider := settings.deep_provider
    deep_think_backend_url := settings.deep_backend_url }

/-- A pipeline capability: `propagate(ticker, date)` returns a raw final
state of type `σ` and a raw decision string, or fails with a message
(`TradingGraphLike`, trading_strategy.py lines 36-38). -/
def Graph (σ : Type) : Type := String → String → Except String (σ × String)

/-- Source `GraphFactory` (trading_strategy.py line 41). -/
def GraphFactory (σ : Type) : Type := List String → Bool → RuntimeConfig → Graph σ

/-- Source `TradingStrategy._is_google_thought_signature_error`
(trading_strategy.py lines 219-222). -/
def is_google_thought_signature_error (msg : String) : Bool :=
  let message := pyLower msg
  containsSub message "thought_signature" && containsSub message "gemini"

/-- The `uses_google` test of the except branch
(trading_strategy.py lines 242-246). -/
def uses_google (s : StrategySettings) : Bool :=
  (s.provider == "google") || (s.quick_provider == some "google")
    || (s.deep_provider == some "google")

/-- The two errors `run_market_signal` can raise (both `ValueError` in the
source): the empty-batch check at line 225-226 and the all-vendors-failed
check at lines 305-308. -/
inductive StrategyError where
  | emptyBatch
  | allVendorsFailed
  deriving Repr, DecidableEq

/-- Observable events of one orchestration run: creation of a capability
instance by the factory (tagged with a fresh instance id) and one
`propagate` invocation (tagged with the instance id and the configuration
the instance was built from). -/
inductive StrategyEv where
  | factoryCall (analysts : List String) (debug : Bool) (cfg : RuntimeConfig) (instanceId : Nat)
  | propagateCall (instanceId : Nat) (cfg : RuntimeConfig) (ticker : String) (date : String)
  deriving Repr, DecidableEq

/-- Is this event a pipeline invocation? -/
def StrategyEv.isPropagate : StrategyEv → Bool
  | StrategyEv.propagateCall _ _ _ _ => true
  | _ => false

/-- Is this event a factory call? -/
def StrategyEv.isFactory : StrategyEv → Bool
  | StrategyEv.factoryCall _ _ _ _ => true
  | _ => false

/-- The mutable attributes of a `TradingStrategy` object: `self.settings`,
`self.config`, and `self.graph`.  The graph function itself is determined
by the pure factory applied to `graphCfg` (the configuration the current
instance was built from); `graphId` is the creation ordinal of the current
instance and `nextId` the next fresh ordinal. -/
structure StrategyState where
  settings : StrategySettings
  config : RuntimeConfig
  graphId : Nat
  graphCfg : RuntimeConfig
  nextId : Nat
  deriving Repr, DecidableEq

/-- Source `TradingStrategy.__init__` (trading_strategy.py lines 205-217): build
the runtime config and create the initial graph instance via the factory. -/
def strategyInit (dflt : List (String × String)) (settings : StrategySettings) :
    StrategyState × List StrategyEv :=
  let config := build_runtime_config dflt settings
  ({ settings := settings, config := config, graphId := 0, graphCfg := config, nextId := 1 },
    [StrategyEv.factoryCall settings.analysts settings.debug config 0])

/-- Result of processing one vendor of the batch. -/
structure StepResult (φ : Type) where
  state : StrategyState
  trace : List StrategyEv
  result : Option (VendorRunResult φ)

/-- Result of the whole vendor loop. -/
structure LoopResult (φ : Type) where
  state : StrategyState
  trace : List StrategyEv
  results : List (VendorRunResult φ)

/-- Result of `run_market_signal`. -/
structure RunResult (φ : Type) where
  outcome : Except StrategyError (StrategyBatchResult φ)
  state : StrategyState
  trace : List StrategyEv

/-- Lines 280-302: validate the raw final state
(`FinalStateModel.model_validate`, abstracted as `validate`), normalize the
raw decision, and build the `VendorRunResult`; a validation failure is
absorbed (`none`). -/
def mkVendorResult {σ φ : Type} (validate : σ → Option φ) (signal : MarketSignal)
    (st : StrategyState) (vendor : SuggestedVendor) (final_state_raw : σ)
    (decision_raw : String) : Option (VendorRunResult φ) :=
  match validate final_state_raw with
  | none => none
  | some fs =>
      some
        { ticker := vendor.name
          analysis_date := st.settings.analysis_date
          signal_type := signal.signal_type
          signal_label := signal.label
          vendor_reason := vendor.reason
          vendor_confidence := vendor.confidence
          decision := normalize_decision decision_raw
          final_state := fs }

/-- The body of the `for` loop of `run_market_signal`
(trading_strategy.py lines 230-303) for one vendor: invoke the current
graph; on a Google thought_signature error build the fallback
configuration, replace `self.config` and `self.graph`, and retry once; a
failed retry, a non-recoverable failure, or a validation failure drops the
vendor (`result := none`). -/
def processVendor {σ φ : Type} (factory : GraphFactory σ) (validate : σ → Option φ)
    (signal : MarketSignal) (st : StrategyState) (vendor : SuggestedVendor) :
    StepResult φ :=
  let ticker := vendor.name
  let date := st.settings.analysis_date
  let graph := factory st.settings.analysts st.settings.debug st.graphCfg
  let ev0 := StrategyEv.propagateCall st.graphId st.graphCfg ticker date
  match graph ticker date with
  | Except.ok (final_state_raw, decision_raw) =>
      { state := st, trace := [ev0]
        result := mkVendorResult validate signal st vendor final_state_raw decision_raw }
  | Except.error msg =>
      if uses_google st.settings && is_google_thought_signature_error msg then
        let fallback_config := { st.config with google_thinking_level := none }
        let st1 : StrategyState :=
          { st with config := fallback_config, graphId := st.nextId,
                    graphCfg := fallback_config, nextId := st.nextId + 1 }
        let ev1 := StrategyEv.factoryCall st.settings.analysts st.settings.debug
          fallback_config st.nextId
        let ev2 := StrategyEv.propagateCall st.nextId fallback_config ticker date
        let graph1 := factory st.settings.analysts st.settings.debug fallback_config
        match graph1 ticker date with
        | Except.ok (final_state_raw, decision_raw) =>
            { state := st1, trace := [ev0, ev1, ev2]
              result := mkVendorResult validate signal st1 vendor final_state_raw decision_raw }
        | Except.error _ =>
            { state := st1, trace := [ev0, ev1, ev2], result := none }
      else
        { state := st, trace := [ev0], result := none }

/-- The `for` loop of `run_market_signal` over the whole vendor list,
threading the mutable strategy state and appending successful results. -/
def runLoop {σ φ : Type} (factory : GraphFactory σ) (validate : σ → Option φ)
    (signal : MarketSignal) : StrategyState → List SuggestedVendor → LoopResult φ
  | st, [] => { state := st, trace := [], results := [] }
  | st, vendor :: rest =>
      let step := processVendor factory validate signal st vendor
      let tail := runLoop factory validate signal step.state rest
      { state := tail.state
        trace := step.trace ++ tail.trace
        results :=
          match step.result with
          | some r => r :: tail.results
          | none => tail.results }

/-- Per-vendor outcomes of the loop (ghost view used to state the claims:
one `Option` per vendor, in input order). -/
def runOutcomes {σ φ : Type} (factory : GraphFactory σ) (validate : σ → Option φ)
    (signal : MarketSignal) : StrategyState → List SuggestedVendor →
    List (Option (VendorRunResult φ))
  | _, [] => []
  | st, vendor :: rest =>
      let step := processVendor factory validate signal st vendor
      step.result :: runOutcomes factory validate signal step.state rest

/-- Source `TradingStrategy.run_market_signal` (trading_strategy.py lines 224-316):
fail fast on an empty vendor list, run the loop, fail if no vendor
succeeded, otherwise assemble the batch result. -/
def run_market_signal {σ φ : Type} (factory : GraphFactory σ) (validate : σ → Option φ)
    (st : StrategyState) (signal : MarketSignal) : RunResult φ :=
  if signal.suggested_vendors.isEmpty then
    { outcome := Except.error StrategyError.emptyBatch, state := st, trace := [] }
  else
    let loop := runLoop factory validate signal st signal.suggested_vendors
    if loop.results.isEmpty then
      { outcome := Except.error StrategyError.allVendorsFailed
        state := loop.state, trace := loop.trace }
    else
      { outcome := Except.ok
          { provider := loop.state.settings.provider
            quick_model := loop.state.settings.quick_model
            deep_model := loop.state.settings.deep_model
            analysis_date := loop.state.settings.analysis_date
            results := loop.results }
        state := loop.state, trace := loop.trace }

/-! ## Observability collector (`app/core/tradingagents/graph/timing_callback.py`)

The Python handler guards every read and write of its maps/lists with one
`threading.Lock`, so each callback is atomic and any concurrent execution
is equivalent to processing some interleaved sequence of events; the
embedding processes such sequences, each event carrying the
`time.monotonic()` value read by its callback. -/

/-- Source `LLMCallRecord` (timing_callback.py lines 21-33). -/
structure LLMCallRecord where
  run_id : String
  model : String
  start_time : ℚ
  end_time : ℚ := 0
  duration_s : ℚ := 0
  input_tokens : Int := 0
  output_tokens : Int := 0
  total_tokens : Int := 0
  error : Option String := none
  deriving Repr, DecidableEq

/-- Source `ChainRecord` (timing_callback.py lines 36-46). -/
structure ChainRecord where
  run_id : String
  name : String
  parent_run_id : Option String := none
  start_time : ℚ := 0
  end_time : ℚ := 0
  duration_s : ℚ := 0
  error : Option String := none
  deriving Repr, DecidableEq

/-- Source `ToolCallRecord` (timing_callback.py lines 49-58). -/
structure ToolCallRecord where
  run_id : String
  tool_name : String
  start_time : ℚ := 0
  end_time : ℚ := 0
  duration_s : ℚ := 0
  error : Option String := none
  deriving Repr, DecidableEq

/-- The parts of a `serialized` callback argument the handler reads:
`serialized["kwargs"]["model"]`, `serialized["kwargs"]["model_name"]`,
`serialized["id"]`, and `serialized["name"]`; `none` marks an absent key. -/
structure Serialized where
  kwargs_model : Option String := none
  kwargs_model_name : Option String := none
  id_list : List String := []
  name : Option String := none
  deriving Repr, DecidableEq

/-- The empty `serialized` dict `\x7b\x7d` used as pop default. -/
def emptySerialized : Serialized := {}

/-- Source `TimingCallbackHandler._extract_model_name`
(timing_callback.py lines 91-98); Python `or` treats `None` and the empty
string as falsy. -/
def extract_model_name (s : Serialized) : String :=
  let model :=
    match s.kwargs_model with
    | some m => if m = "" then (s.kwargs_model_name.getD "") else m
    | none => s.kwargs_model_name.getD ""
  if model = "" then
    match s.id_list.getLast? with
    | some x => x
    | none => "unknown"
  else model

/-- Source `TimingCallbackHandler._extract_tool_name` (lines 100-102). -/
def extract_tool_name (s : Serialized) : String :=
  s.name.getD "unknown_tool"

/-- Source `TimingCallbackHandler._extract_chain_name` (lines 104-110). -/
def extract_chain_name (s : Serialized) : String :=
  let fromId :=
    match s.id_list.getLast? with
    | some x => x
    | none => "unknown_chain"
  match s.name with
  | some n => if n = "" then fromId else n
  | none => fromId

/-- The parts of a generation the usage extraction reads:
`generation.message.usage_metadata` (an int dict), `none` for an absent
attribute or `None` value. -/
structure MessageM where
  usage_metadata : Option (List (String × Int)) := none
  deriving Repr, DecidableEq

/-- One generation inside `LLMResult.generations`. -/
structure GenerationM where
  message : Option MessageM := none
  deriving Repr, DecidableEq

/-- The parts of an `LLMResult` the usage extraction reads:
`llm_output` (a dict whose `token_usage` entry is an int dict) and the
nested `generations` lists. -/
structure LLMResultM where
  llm_output : Option (List (String × List (String × Int))) := none
  generations : List (List GenerationM) := []
  deriving Repr, DecidableEq

/-- The three usage counters returned by `_extract_token_usage`. -/
structure TokenCounts where
  input_tokens : Int
  output_tokens : Int
  total_tokens : Int
  deriving Repr, DecidableEq

/-- All-zero counters (the initial `result` dict of lines 120). -/
def zeroTokenCounts : TokenCounts :=
  { input_tokens := 0, output_tokens := 0, total_tokens := 0 }

/-- The truthy `token_usage` dict of the flat OpenAI-style shape
(lines 122-124): present iff `llm_output` is a truthy dict whose
`token_usage` entry is a truthy dict. -/
def flatTokenUsage? (r : LLMResultM) : Option (List (String × Int)) :=
  match r.llm_output with
  | none => none
  | some d =>
      if d.isEmpty then none
      else
        let token_usage := dget d "token_usage" []
        if token_usage.isEmpty then none else some token_usage

/-- The truthy `usage_metadata` of one generation, if any (lines 133-135). -/
def genUsage? (gen : GenerationM) : Option (List (String × Int)) :=
  match gen.message with
  | none => none
  | some msg =>
      match msg.usage_metadata with
      | none => none
      | some u => if u.isEmpty then none else some u

/-- First truthy `usage_metadata` of one inner generation list. -/
def rowUsage? : List GenerationM → Option (List (String × Int))
  | [] => none
  | g :: rest =>
      match genUsage? g with
      | some u => some u
      | none => rowUsage? rest

/-- First truthy `usage_metadata` over the nested generation lists, in
iteration order (the double `for` of lines 131-139). -/
def firstGenUsage? : List (List GenerationM) → Option (List (String × Int))
  | [] => none
  | row :: rest =>
      match rowUsage? row with
      | some u => some u
      | none => firstGenUsage? rest

/-- Source `TimingCallbackHandler._extract_token_usage` (lines 112-141): flat
`llm_output["token_usage"]` counters first, else the first generation
`usage_metadata` counters, else all zeros; each counter defaults to 0. -/
def extract_token_usage (r : LLMResultM) : TokenCounts :=
  match flatTokenUsage? r with
  | some token_usage =>
      { input_tokens := dget token_usage "prompt_tokens" 0
        output_tokens := dget token_usage "completion_tokens" 0
        total_tokens := dget token_usage "total_tokens" 0 }
  | none =>
      match firstGenUsage? r.generations with
      | some usage =>
          { input_tokens := dget usage "input_tokens" 0
            output_tokens := dget usage "output_tokens" 0
            total_tokens := dget usage "total_tokens" 0 }
      | none => zeroTokenCounts

/-- The mutable state of a `TimingCallbackHandler` (lines 73-87): in-flight
maps and completed-record lists. -/
structure TimingState where
  llm_starts : List (String × ℚ)
  llm_serialized : List (String × Serialized)
  chain_starts : List (String × ChainRecord)
  tool_starts : List (String × ℚ)
  tool_serialized : List (String × Serialized)
  llm_calls : List LLMCallRecord
  chain_records : List ChainRecord
  tool_calls : List ToolCallRecord
  deriving Repr, DecidableEq

/-- The freshly constructed handler state (`__init__`, lines 73-87). -/
def TimingState.init : TimingState :=
  { llm_starts := [], llm_serialized := [], chain_starts := [], tool_starts := []
    tool_serialized := [], llm_calls := [], chain_records := [], tool_calls := [] }

/-- Source `on_llm_start` / `on_chat_model_start` (lines 145-175): record the
start time and serialized metadata, keyed by run id; `t` is the
`time.monotonic()` value read inside the lock. -/
def on_llm_start (rid : String) (ser : Serialized) (t : ℚ) (s : TimingState) : TimingState :=
  { s with llm_starts := dset s.llm_starts rid t
           llm_serialized := dset s.llm_serialized rid ser }

/-- Source `on_llm_end` (lines 177-211): pop the start entry (defaulting the
start time to the end time), extract tokens, append a completed record. -/
def on_llm_end (rid : String) (resp : LLMResultM) (t : ℚ) (s : TimingState) : TimingState :=
  let popped := dpop s.llm_starts rid
  let poppedSer := dpop s.llm_serialized rid
  let start_time := popped.1.getD t
  let serialized := poppedSer.1.getD emptySerialized
  let tokens := extract_token_usage resp
  let record : LLMCallRecord :=
    { run_id := rid
      model := extract_model_name serialized
      start_time := start_time
      end_time := t
      duration_s := t - start_time
      input_tokens := tokens.input_tokens
      output_tokens := tokens.output_tokens
      total_tokens := tokens.total_tokens }
  { s with llm_starts := popped.2
           llm_serialized := poppedSer.2
           llm_calls := s.llm_calls ++ [record] }

/-- Source `on_llm_error` (lines 213-237). -/
def on_llm_error (rid : String) (err : String) (t : ℚ) (s : TimingState) : TimingState :=
  let popped := dpop s.llm_starts rid
  let poppedSer := dpop s.llm_serialized rid
  let start_time := popped.1.getD t
  let serialized := poppedSer.1.getD emptySerialized
  let record : LLMCallRecord :=
    { run_id := rid
      model := extract_model_name serialized
      start_time := start_time
      end_time := t
      duration_s := t - start_time
      error := some err }
  { s with llm_starts := popped.2
           llm_serialized := poppedSer.2
           llm_calls := s.llm_calls ++ [record] }

/-- Source `on_chain_start` (lines 241-260). -/
def on_chain_start (rid : String) (ser : Serialized) (parent : Option String) (t : ℚ)
    (s : TimingState) : TimingState :=
  let record : ChainRecord :=
    { run_id := rid
      name := extract_chain_name ser
      parent_run_id := parent
      start_time := t }
  { s with chain_starts := dset s.chain_starts rid record }

/-- Source `on_chain_end` (lines 262-283): pop the in-flight record; with no
matching start (`pop` returns `None`) nothing at all happens. -/
def on_chain_end (rid : String) (t : ℚ) (s : TimingState) : TimingState :=
  match dlookup s.chain_starts rid with
  | none => s
  | some record =>
      { s with chain_starts := dremove s.chain_starts rid
               chain_records := s.chain_records ++
                 [{ record with end_time := t, duration_s := t - record.start_time }] }

/-- Source `on_chain_error` (lines 285-302). -/
def on_chain_error (rid : String) (err : String) (t : ℚ) (s : TimingState) : TimingState :=
  match dlookup s.chain_starts rid with
  | none => s
  | some record =>
      { s with chain_starts := dremove s.chain_starts rid
               chain_records := s.chain_records ++
                 [{ record with end_time := t, duration_s := t - record.start_time,
                                error := some err }] }

/-- Source `on_tool_start` (lines 306-320). -/
def on_tool_start (rid : String) (ser : Serialized) (t : ℚ) (s : TimingState) : TimingState :=
  { s with tool_starts := dset s.tool_starts rid t
           tool_serialized := dset s.tool_serialized rid ser }

/-- Source `on_tool_end` (lines 322-350). -/
def on_tool_end (rid : String) (t : ℚ) (s : TimingState) : TimingState :=
  let popped := dpop s.tool_starts rid
  let poppedSer := dpop s.tool_serialized rid
  let start_time := popped.1.getD t
  let serialized := poppedSer.1.getD emptySerialized
  let record : ToolCallRecord :=
    { run_id := rid
      tool_name := extract_tool_name serialized
      start_time := start_time
      end_time := t
      duration_s := t - start_time }
  { s with tool_starts := popped.2
           tool_serialized := poppedSer.2
           tool_calls := s.tool_calls ++ [record] }

/-- Source `on_tool_error` (lines 352-375). -/
def on_tool_error (rid : String) (err : String) (t : ℚ) (s : TimingState) : TimingState :=
  let popped := dpop s.tool_starts rid
  let poppedSer := dpop s.tool_serialized rid
  let start_time := popped.1.getD t
  let serialized := poppedSer.1.getD emptySerialized
  let record : ToolCallRecord :=
    { run_id := rid
      tool_name := extract_tool_name serialized
      start_time := start_time
      end_time := t
      duration_s := t - start_time
      error := some err }
  { s with tool_starts := popped.2
           tool_serialized := poppedSer.2
           tool_calls := s.tool_calls ++ [record] }

/-- One collector event, carrying the timestamp its callback reads. -/
inductive TEvent where
  | chatModelStart (rid : String) (ser : Serialized) (t : ℚ)
  | llmStart (rid : String) (ser : Serialized) (t : ℚ)
  | llmEnd (rid : String) (resp : LLMResultM) (t : ℚ)
  | llmError (rid : String) (err : String) (t : ℚ)
  | chainStart (rid : String) (ser : Serialized) (parent : Option String) (t : ℚ)
  | chainEnd (rid : String) (t : ℚ)
  | chainError (rid : String) (err : String) (t : ℚ)
  | toolStart (rid : String) (ser : Serialized) (t : ℚ)
  | toolEnd (rid : String) (t : ℚ)
  | toolError (rid : String) (err : String) (t : ℚ)
  deriving Repr, DecidableEq

/-- Dispatch one event to its handler (each handler body runs under the
one lock of the Python class, so this is the atomic step). -/
def TimingState.step (s : TimingState) : TEvent → TimingState
  | TEvent.chatModelStart rid ser t => on_llm_start rid ser t s
  | TEvent.llmStart rid ser t => on_llm_start rid ser t s
  | TEvent.llmEnd rid resp t => on_llm_end rid resp t s
  | TEvent.llmError rid err t => on_llm_error rid err t s
  | TEvent.chainStart rid ser parent t => on_chain_start rid ser parent t s
  | TEvent.chainEnd rid t => on_chain_end rid t s
  | TEvent.chainError rid err t => on_chain_error rid err t s
  | TEvent.toolStart rid ser t => on_tool_start rid ser t s
  | TEvent.toolEnd rid t => on_tool_end rid t s
  | TEvent.toolError rid err t => on_tool_error rid err t s

/-- Process a whole interleaved event sequence. -/
def processEvents (s : TimingState) (es : List TEvent) : TimingState :=
  es.foldl TimingState.step s

/-- Round-half-to-even to an integer (Python `round`). -/
def roundHalfEven (q : ℚ) : ℤ :=
  let f := ⌊q⌋
  let r := q - f
  if r < 1 / 2 then f
  else if 1 / 2 < r then f + 1
  else if f % 2 = 0 then f else f + 1

/-- Python `round(x, 3)`. -/
def round3 (q : ℚ) : ℚ :=
  (roundHalfEven (q * 1000) : ℚ) / 1000

/-- One `llm_calls` entry of the summary dict (lines 393-403). -/
structure SummaryLLMEntry where
  model : String
  duration_s : ℚ
  input_tokens : Int
  output_tokens : Int
  total_tokens : Int
  error : Option String
  deriving Repr, DecidableEq

/-- One `chain_records` entry of the summary dict (lines 404-411). -/
structure SummaryChainEntry where
  name : String
  duration_s : ℚ
  error : Option String
  deriving Repr, DecidableEq

/-- One `tool_calls` entry of the summary dict (lines 412-419). -/
structure SummaryToolEntry where
  tool_name : String
  duration_s : ℚ
  error : Option String
  deriving Repr, DecidableEq

/-- The `totals` entry of the summary dict (lines 420-429). -/
structure SummaryTotals where
  llm_call_count : Nat
  llm_total_time_s : ℚ
  llm_total_input_tokens : Int
  llm_total_output_tokens : Int
  llm_total_tokens : Int
  tool_call_count : Nat
  tool_total_time_s : ℚ
  chain_count : Nat
  deriving Repr, DecidableEq

/-- The summary dict returned by `get_summary`. -/
structure Summary where
  llm_calls : List SummaryLLMEntry
  chain_records : List SummaryChainEntry
  tool_calls : List SummaryToolEntry
  totals : SummaryTotals
  deriving Repr, DecidableEq

/-- Source `TimingCallbackHandler.get_summary` (lines 379-430): snapshot the
completed lists and compute entry lists and totals from the snapshot. -/
def get_summary (s : TimingState) : Summary :=
  let llm_calls := s.llm_calls
  let chains := s.chain_records
  let tools := s.tool_calls
  let total_llm_time := (llm_calls.map (fun c => c.duration_s)).sum
  let total_input_tokens := (llm_calls.map (fun c => c.input_tokens)).sum
  let total_output_tokens := (llm_calls.map (fun c => c.output_tokens)).sum
  let total_tokens := (llm_calls.map (fun c => c.total_tokens)).sum
  let total_tool_time := (tools.map (fun t => t.duration_s)).sum
  { llm_calls := llm_calls.map (fun c =>
      { model := c.model, duration_s := round3 c.duration_s
        input_tokens := c.input_tokens, output_tokens := c.output_tokens
        total_tokens := c.total_tokens, error := c.error })
    chain_records := chains.map (fun r =>
      { name := r.name, duration_s := round3 r.duration_s, error := r.error })
    tool_calls := tools.map (fun t =>
      { tool_name := t.tool_name, duration_s := round3 t.duration_s, error := t.error })
    totals :=
      { llm_call_count := llm_calls.length
        llm_total_time_s := round3 total_llm_time
        llm_total_input_tokens := total_input_tokens
        llm_total_output_tokens := total_output_tokens
        llm_total_tokens := total_tokens
        tool_call_count := tools.length
        tool_total_time_s := round3 total_tool_time
        chain_count := chains.length } }

/-- Source `TimingCallbackHandler.reset` (lines 472-482): clear every in-flight
map and completed list. -/
def TimingState.reset (s : TimingState) : TimingState :=
  { s with llm_starts := [], llm_serialized := [], chain_starts := []
           tool_starts := [], tool_serialized := []
           llm_calls := [], chain_records := [], tool_calls := [] }

/-! ## Auxiliary definitions for claim statements, witnesses and
counterexamples -/

/-- The fallback configuration of trading_strategy.py lines 257-258: a
copy of the current configuration with the Google thinking level
cleared. -/
def fallbackConfig (c : RuntimeConfig) : RuntimeConfig :=
  { c with google_thinking_level := none }

/-- A flat-shape result sample used by the C7 witness. -/
def sampleFlatResult : LLMResultM :=
  { llm_output := some [("token_usage",
      [("prompt_tokens", 10), ("completion_tokens", 5), ("total_tokens", 15)])]
    generations := [] }

/-- A completed call record whose duration `1/128` (an exact binary float,
`0.0078125` in the source) has more than three decimal places. -/
def sampleLLMRecord : LLMCallRecord :=
  { run_id := "r1", model := "m", start_time := 0, end_time := 1 / 128
    duration_s := 1 / 128 }

/-- A collector state holding exactly that one completed call record. -/
def sampleTimingState : TimingState :=
  { TimingState.init with llm_calls := [sampleLLMRecord] }

/-- The run id recorded by a call-start event, if this is one. -/
def TEvent.startRid? : TEvent → Option String
  | TEvent.chatModelStart rid _ _ => some rid
  | TEvent.llmStart rid _ _ => some rid
  | _ => none

/-- The run id recorded by a call-completion (end or error) event. -/
def TEvent.endRid? : TEvent → Option String
  | TEvent.llmEnd rid _ _ => some rid
  | TEvent.llmError rid _ _ => some rid
  | _ => none

/-- Two call start/end pairs, interleaved. -/
def sampleEvents : List TEvent :=
  [TEvent.llmStart "a" {} 0, TEvent.llmStart "b" {} 1,
   TEvent.llmEnd "b" {} 2, TEvent.llmEnd "a" {} 3]

/-- A stand-in capability factory whose graphs always succeed. -/
def okFactory : GraphFactory Unit :=
  fun _ _ _ => fun _ _ => Except.ok ((), "buy")

/-- A stand-in capability factory whose graphs always raise the Google
thought_signature marker. -/
def markerFactory : GraphFactory Unit :=
  fun _ _ _ => fun _ _ => Except.error "Gemini API rejected thought_signature"

/-- A final-state validation stand-in that always succeeds. -/
def someValidate : Unit → Option Unit := fun _ => some ()

/-- Sample settings: Google provider with thinking enabled. -/
def sampleSettings : StrategySettings :=
  { provider := "google", backend_url := "http://b", quick_model := "q"
    deep_model := "d", google_thinking_level := some "high"
    openai_reasoning_effort := none, research_depth := 1, debug := false
    analysis_date := "2026-01-01", analysts := ["market"] }

/-- The runtime configuration built from the sample settings. -/
def cfg0 : RuntimeConfig := build_runtime_config [] sampleSettings

/-- The strategy state right after construction from the sample settings. -/
def sampleState : StrategyState := (strategyInit [] sampleSettings).1

/-- A first sample vendor. -/
def vendorA : SuggestedVendor :=
  { name := "AAA", reason := "ra", confidence := 1, supporting_articles := [1] }

/-- A second sample vendor. -/
def vendorB : SuggestedVendor :=
  { name := "BBB", reason := "rb", confidence := 0, supporting_articles := [2] }

/-- A sample two-vendor signal. -/
def sampleSignal : MarketSignal :=
  { signal_type := SignalType.opportunity, label := "L", confidence := 1
    supporting_articles := [1], suggested_vendors := [vendorA, vendorB] }

/-- The same signal with no vendors. -/
def emptySignal : MarketSignal :=
  { sampleSignal with suggested_vendors := [] }

/-! ## Theorems for the claims -/

/-- C10: conversion of the raw decision value into the BUY/SELL/HOLD enum
is total (it is a Lean function) and never causes an entity failure: after
trimming and uppercasing, a text containing "BUY" yields `BUY` (with
priority over "SELL"), else one containing "SELL" yields `SELL`, and any
other text yields `HOLD`; moreover whether a vendor result is produced
depends only on final-state validation, never on the decision text. -/
theorem C10_decision_normalization (value : String) :
    (containsSub (pyUpper (pyStrip value)) "BUY" = true →
      normalize_decision value = Decision.BUY) ∧
    (containsSub (pyUpper (pyStrip value)) "BUY" = false →
      containsSub (pyUpper (pyStrip value)) "SELL" = true →
      normalize_decision value = Decision.SELL) ∧
    (containsSub (pyUpper (pyStrip value)) "BUY" = false →
      containsSub (pyUpper (pyStrip value)) "SELL" = false →
      normalize_decision value = Decision.HOLD) ∧
    (∀ (σ φ : Type) (validate : σ → Option φ) (signal : MarketSignal)
      (st : StrategyState) (vendor : SuggestedVendor) (raw : σ),
      (mkVendorResult validate signal st vendor raw value).isSome = (validate raw).isSome ∧
      ∀ r, mkVendorResult validate signal st vendor raw value = some r →
        r.decision = normalize_decision value) := by
  refine ⟨fun h => by simp [normalize_decision, h],
          fun h1 h2 => by simp [normalize_decision, h1, h2],
          fun h1 h2 => by simp [normalize_decision, h1, h2],
          fun σ φ validate signal st vendor raw => ⟨?_, ?_⟩⟩
  · cases hv : validate raw <;> simp [mkVendorResult, hv]
  · intro r hr
    cases hv : validate raw with
    | none => simp [mkVendorResult, hv] at hr
    | some fs =>
        simp only [mkVendorResult, hv] at hr
        cases hr
        rfl

/-- Witness for C10: a text containing both markers normalizes to `BUY`. -/
theorem C10_decision_normalization_witness :
    normalize_decision " Buy or sell? " = Decision.BUY :=
  (C10_decision_normalization " Buy or sell? ").1 (by decide)

/-- C7: usage-counter extraction is total (a Lean function, so it cannot
raise) and returns the flat `llm_output` counters when that truthy shape is
present, otherwise the first truthy per-generation `usage_metadata`
counters, otherwise zero for every counter; each individual counter
defaults to 0 when its key is missing. -/
theorem C7_token_usage_extraction (r : LLMResultM) :
    (∀ tu, flatTokenUsage? r = some tu →
      extract_token_usage r =
        { input_tokens := dget tu "prompt_tokens" 0
          output_tokens := dget tu "completion_tokens" 0
          total_tokens := dget tu "total_tokens" 0 }) ∧
    (∀ u, flatTokenUsage? r = none → firstGenUsage? r.generations = some u →
      extract_token_usage r =
        { input_tokens := dget u "input_tokens" 0
          output_tokens := dget u "output_tokens" 0
          total_tokens := dget u "total_tokens" 0 }) ∧
    (flatTokenUsage? r = none → firstGenUsage? r.generations = none →
      extract_token_usage r = zeroTokenCounts) := by
  refine ⟨?_, ?_, ?_⟩
  · intro tu h
    simp [extract_token_usage, h]
  · intro u h1 h2
    simp [extract_token_usage, h1, h2]
  · intro h1 h2
    simp [extract_token_usage, h1, h2]

/-- Witness for C7: the flat shape yields its counters. -/
theorem C7_token_usage_extraction_witness :
    extract_token_usage sampleFlatResult =
      { input_tokens := 10, output_tokens := 5, total_tokens := 15 } :=
  (C7_token_usage_extraction sampleFlatResult).1
    [("prompt_tokens", 10), ("completion_tokens", 5), ("total_tokens", 15)] (by decide)

/-- C6: a call-level end event whose run id has no in-flight start still
produces a completed record, with the end time as synthetic start and
duration 0; a node-level (chain) end event with no in-flight start leaves
the collector state completely unchanged (no record). -/
theorem C6_unmatched_end_events (s : TimingState) (rid : String) (resp : LLMResultM)
    (t : ℚ) (h1 : dlookup s.llm_starts rid = none)
    (h2 : dlookup s.chain_starts rid = none) :
    (∃ r, (on_llm_end rid resp t s).llm_calls = s.llm_calls ++ [r] ∧
      r.run_id = rid ∧ r.start_time = t ∧ r.end_time = t ∧ r.duration_s = 0) ∧
    on_chain_end rid t s = s := by
  constructor
  · refine ⟨_, rfl, rfl, ?_, rfl, ?_⟩
    · simp [on_llm_end, dpop, h1]
    · simp [on_llm_end, dpop, h1]
  · simp [on_chain_end, h2]

/-- Witness for C6 at the freshly constructed collector. -/
theorem C6_unmatched_end_events_witness :
    (∃ r, (on_llm_end "x" {} 5 TimingState.init).llm_calls =
        TimingState.init.llm_calls ++ [r] ∧
      r.run_id = "x" ∧ r.start_time = 5 ∧ r.end_time = 5 ∧ r.duration_s = 0) ∧
    on_chain_end "x" 5 TimingState.init = TimingState.init :=
  C6_unmatched_end_events TimingState.init "x" {} 5 rfl rfl

/-- Counterexample to C8 as stated: `get_summary` reports the total call
duration rounded to three decimals (`round(total_llm_time, 3)`,
timing_callback.py line 422), so for a single record of duration `1/128`
the reported total (`0.008`) differs from the sum of the per-record
durations (`0.0078125`). -/
theorem C8_counterexample :
    (get_summary sampleTimingState).totals.llm_total_time_s ≠
      (sampleTimingState.llm_calls.map (fun c => c.duration_s)).sum := by
  have hsum : (sampleTimingState.llm_calls.map (fun c => c.duration_s)).sum
      = 1 / 128 := by
    simp [sampleTimingState, sampleLLMRecord, TimingState.init]
  have h1 : (get_summary sampleTimingState).totals.llm_total_time_s
      = round3 (1 / 128) := by
    rw [show (get_summary sampleTimingState).totals.llm_total_time_s =
      round3 ((sampleTimingState.llm_calls.map (fun c => c.duration_s)).sum)
      from rfl, hsum]
  have hf : ⌊(125 / 16 : ℚ)⌋ = 7 := by norm_num
  have h2 : roundHalfEven (125 / 16 : ℚ) = 8 := by
    simp only [roundHalfEven, hf]
    norm_num
  have h3 : round3 (1 / 128 : ℚ) = 1 / 125 := by
    have hm : ((1 : ℚ) / 128) * 1000 = 125 / 16 := by norm_num
    simp only [round3, hm, h2]
    norm_num
  rw [h1, h3, hsum]
  norm_num

/-- C8 (amended): each summary count equals the length of the
corresponding completed list, each token total equals the exact sum of the
per-record counters, each duration total equals the sum of the per-record
durations rounded to three decimal places, and after `reset()` the summary
has empty record lists and all-zero totals. -/
theorem C8_summary_totals (s : TimingState) :
    (get_summary s).totals.llm_call_count = s.llm_calls.length ∧
    (get_summary s).totals.chain_count = s.chain_records.length ∧
    (get_summary s).totals.tool_call_count = s.tool_calls.length ∧
    (get_summary s).llm_calls.length = s.llm_calls.length ∧
    (get_summary s).chain_records.length = s.chain_records.length ∧
    (get_summary s).tool_calls.length = s.tool_calls.length ∧
    (get_summary s).totals.llm_total_input_tokens =
      (s.llm_calls.map (fun c => c.input_tokens)).sum ∧
    (get_summary s).totals.llm_total_output_tokens =
      (s.llm_calls.map (fun c => c.output_tokens)).sum ∧
    (get_summary s).totals.llm_total_tokens =
      (s.llm_calls.map (fun c => c.total_tokens)).sum ∧
    (get_summary s).totals.llm_total_time_s =
      round3 ((s.llm_calls.map (fun c => c.duration_s)).sum) ∧
    (get_summary s).totals.tool_total_time_s =
      round3 ((s.tool_calls.map (fun t => t.duration_s)).sum) ∧
    get_summary (TimingState.reset s) =
      { llm_calls := [], chain_records := [], tool_calls := []
        totals := { llm_call_count := 0, llm_total_time_s := 0
                    llm_total_input_tokens := 0, llm_total_output_tokens := 0
                    llm_total_tokens := 0, tool_call_count := 0
                    tool_total_time_s := 0, chain_count := 0 } } := by
  have hz : round3 0 = 0 := by norm_num [round3, roundHalfEven]
  refine ⟨rfl, rfl, rfl, by simp [get_summary], by simp [get_summary],
    by simp [get_summary], rfl, rfl, rfl, rfl, rfl, ?_⟩
  simp [get_summary, TimingState.reset, hz]

/-- One collector step appends exactly the run id of the completion event to
the completed call-record ids: call-start, node, and tool events append
nothing, call end/error events append exactly one record keyed by their
run id. -/
theorem step_llm_run_ids (s : TimingState) (e : TEvent) :
    ((s.step e).llm_calls.map (fun r => r.run_id)) =
      s.llm_calls.map (fun r => r.run_id) ++ e.endRid?.toList := by
  cases e with
  | chatModelStart rid ser t => simp [TimingState.step, on_llm_start, TEvent.endRid?]
  | llmStart rid ser t => simp [TimingState.step, on_llm_start, TEvent.endRid?]
  | llmEnd rid resp t => simp [TimingState.step, on_llm_end, TEvent.endRid?]
  | llmError rid err t => simp [TimingState.step, on_llm_error, TEvent.endRid?]
  | chainStart rid ser p t => simp [TimingState.step, on_chain_start, TEvent.endRid?]
  | chainEnd rid t =>
      cases h : dlookup s.chain_starts rid <;>
        simp [TimingState.step, on_chain_end, h, TEvent.endRid?]
  | chainError rid err t =>
      cases h : dlookup s.chain_starts rid <;>
        simp [TimingState.step, on_chain_error, h, TEvent.endRid?]
  | toolStart rid ser t => simp [TimingState.step, on_tool_start, TEvent.endRid?]
  | toolEnd rid t => simp [TimingState.step, on_tool_end, TEvent.endRid?]
  | toolError rid err t => simp [TimingState.step, on_tool_error, TEvent.endRid?]

/-- Processing a sequence of events appends exactly the run ids of its
call-completion events to the completed call-record ids. -/
theorem processEvents_llm_run_ids (es : List TEvent) (s : TimingState) :
    ((processEvents s es).llm_calls.map (fun r => r.run_id)) =
      s.llm_calls.map (fun r => r.run_id) ++ es.filterMap TEvent.endRid? := by
  induction es generalizing s with
  | nil => simp [processEvents]
  | cons e rest ih =>
      have hstep := step_llm_run_ids s e
      have : processEvents s (e :: rest) = processEvents (s.step e) rest := rfl
      rw [this, ih, hstep, List.append_assoc]
      congr 1
      cases he : e.endRid? <;> simp [List.filterMap_cons, he]

/-- C5: for any event sequence made of call start/end pairs — the starts
carry pairwise distinct run ids and the ends are exactly the matching
completions, interleaved in any order — processing the whole sequence from
a fresh collector leaves exactly N completed call records, one per run id,
with none lost and none duplicated.  (The conclusion needs no ordering
hypothesis: it holds for every interleaving of the pairs.) -/
theorem C5_interleaved_pairs (es : List TEvent) (N : ℕ)
    (hN : (es.filterMap TEvent.startRid?).length = N)
    (hNodup : (es.filterMap TEvent.startRid?).Nodup)
    (hPerm : (es.filterMap TEvent.endRid?).Perm (es.filterMap TEvent.startRid?)) :
    (processEvents TimingState.init es).llm_calls.length = N ∧
    ((processEvents TimingState.init es).llm_calls.map (fun r => r.run_id)).Nodup ∧
    ∀ rid, rid ∈ es.filterMap TEvent.startRid? →
      ((processEvents TimingState.init es).llm_calls.map (fun r => r.run_id)).count rid
        = 1 := by
  have h := processEvents_llm_run_ids es TimingState.init
  have hinit : TimingState.init.llm_calls.map (fun r => r.run_id) = [] := rfl
  rw [hinit, List.nil_append] at h
  have hnd : ((processEvents TimingState.init es).llm_calls.map
      (fun r => r.run_id)).Nodup := by
    rw [h]; exact hPerm.nodup_iff.mpr hNodup
  refine ⟨?_, hnd, ?_⟩
  · have hlen : ((processEvents TimingState.init es).llm_calls.map
        (fun r => r.run_id)).length = (es.filterMap TEvent.endRid?).length := by
      rw [h]
    rw [List.length_map] at hlen
    rw [hlen, hPerm.length_eq, hN]
  · intro rid hmem
    have hmem' : rid ∈ (processEvents TimingState.init es).llm_calls.map
        (fun r => r.run_id) := by
      rw [h]; exact hPerm.mem_iff.mpr hmem
    exact List.count_eq_one_of_mem hnd hmem'

/-- Witness for C5 on two interleaved pairs. -/
theorem C5_interleaved_pairs_witness :
    (processEvents TimingState.init sampleEvents).llm_calls.length = 2 ∧
    ((processEvents TimingState.init sampleEvents).llm_calls.map
      (fun r => r.run_id)).Nodup ∧
    ∀ rid, rid ∈ sampleEvents.filterMap TEvent.startRid? →
      ((processEvents TimingState.init sampleEvents).llm_calls.map
        (fun r => r.run_id)).count rid = 1 :=
  C5_interleaved_pairs sampleEvents 2 (by decide) (by decide) (by decide)

/-- The loop results are exactly the successful per-vendor outcomes, in
processing order. -/
theorem runLoop_results_eq {σ φ : Type} (factory : GraphFactory σ)
    (validate : σ → Option φ) (signal : MarketSignal) (st : StrategyState)
    (vs : List SuggestedVendor) :
    (runLoop factory validate signal st vs).results =
      (runOutcomes factory validate signal st vs).filterMap id := by
  induction vs generalizing st with
  | nil => simp [runLoop, runOutcomes]
  | cons v rest ih =>
      simp only [runLoop, runOutcomes, List.filterMap_cons]
      cases h : (processVendor factory validate signal st v).result <;>
        simp [h, ih]

/-- A successful first invocation leaves the strategy state unchanged and
produces exactly one propagate event. -/
theorem processVendor_ok {σ φ : Type} (factory : GraphFactory σ)
    (validate : σ → Option φ) (signal : MarketSignal) (st : StrategyState)
    (vendor : SuggestedVendor) (p : σ × String)
    (hp : factory st.settings.analysts st.settings.debug st.graphCfg vendor.name
      st.settings.analysis_date = Except.ok p) :
    processVendor factory validate signal st vendor =
      { state := st
        trace := [StrategyEv.propagateCall st.graphId st.graphCfg vendor.name
          st.settings.analysis_date]
        result := mkVendorResult validate signal st vendor p.1 p.2 } := by
  simp [processVendor, hp]

/-- With an always-succeeding factory the loop never calls the factory,
keeps the state, and invokes the entities in input order on the one
current capability instance. -/
theorem runLoop_all_ok {σ φ : Type} (factory : GraphFactory σ)
    (validate : σ → Option φ) (signal : MarketSignal) (st : StrategyState)
    (vs : List SuggestedVendor)
    (hok : ∀ a d c t1 t2, ∃ p, factory a d c t1 t2 = Except.ok p) :
    (runLoop factory validate signal st vs).trace =
      vs.map (fun v => StrategyEv.propagateCall st.graphId st.graphCfg v.name
        st.settings.analysis_date) ∧
    (runLoop factory validate signal st vs).state = st := by
  induction vs with
  | nil => simp [runLoop]
  | cons v rest ih =>
      obtain ⟨p, hp⟩ := hok st.settings.analysts st.settings.debug st.graphCfg
        v.name st.settings.analysis_date
      have hstep := processVendor_ok factory validate signal st v p hp
      simp [runLoop, hstep, ih.1, ih.2]

/-- With an always-succeeding factory and an always-succeeding validation,
the loop produces one result per vendor, in input order. -/
theorem runLoop_ok_results {σ φ : Type} (factory : GraphFactory σ)
    (validate : σ → Option φ) (signal : MarketSignal) (st : StrategyState)
    (vs : List SuggestedVendor)
    (hok : ∀ a d c t1 t2, ∃ p, factory a d c t1 t2 = Except.ok p)
    (hval : ∀ x : σ, (validate x).isSome) :
    (runLoop factory validate signal st vs).results.map (fun r => r.ticker) =
      vs.map (fun v => v.name) := by
  induction vs with
  | nil => simp [runLoop]
  | cons v rest ih =>
      obtain ⟨p, hp⟩ := hok st.settings.analysts st.settings.debug st.graphCfg
        v.name st.settings.analysis_date
      have hstep := processVendor_ok factory validate signal st v p hp
      obtain ⟨fs, hfs⟩ := Option.isSome_iff_exists.mp (hval p.1)
      simp [runLoop, hstep, mkVendorResult, hfs, ih]

/-- C1: `run_market_signal` fails with the empty-batch error exactly on an
empty vendor list, and then performs no pipeline invocation at all; for a
non-empty batch every per-vendor failure is absorbed (the run is a total
function into the two-error result type), the all-vendors-failed error is
raised exactly when every per-vendor outcome is a failure, and otherwise
the returned batch holds exactly one result per successful vendor, hence
is non-empty. -/
theorem C1_run_contract {σ φ : Type} (factory : GraphFactory σ)
    (validate : σ → Option φ) (st : StrategyState) (signal : MarketSignal) :
    ((run_market_signal factory validate st signal).outcome =
        Except.error StrategyError.emptyBatch ↔ signal.suggested_vendors = []) ∧
    (signal.suggested_vendors = [] →
      (run_market_signal factory validate st signal).trace = []) ∧
    ((run_market_signal factory validate st signal).outcome =
        Except.error StrategyError.allVendorsFailed ↔
      signal.suggested_vendors ≠ [] ∧
        ∀ o ∈ runOutcomes factory validate signal st signal.suggested_vendors,
          o = none) ∧
    (∀ b, (run_market_signal factory validate st signal).outcome = Except.ok b →
      b.results =
        (runOutcomes factory validate signal st signal.suggested_vendors).filterMap id ∧
      b.results ≠ []) := by
  have hres := runLoop_results_eq factory validate signal st signal.suggested_vendors
  by_cases hv : signal.suggested_vendors = []
  · refine ⟨by simp [run_market_signal, hv], fun _ => by simp [run_market_signal, hv],
      by simp [run_market_signal, hv], fun b hb => ?_⟩
    simp [run_market_signal, hv] at hb
  · have hne : signal.suggested_vendors.isEmpty = false := by
      simpa [List.isEmpty_iff] using hv
    by_cases hr : (runLoop factory validate signal st signal.suggested_vendors).results = []
    · have hri : (runLoop factory validate signal st
          signal.suggested_vendors).results.isEmpty = true := by
        simp [List.isEmpty_iff, hr]
      have hall : ∀ o ∈ runOutcomes factory validate signal st
          signal.suggested_vendors, o = none := by
        have hnil := hres.symm.trans hr
        intro o ho
        simpa using List.filterMap_eq_nil_iff.mp hnil o ho
      refine ⟨by simp [run_market_signal, hne, hri, hv], fun h => absurd h hv,
        ?_, fun b hb => ?_⟩
      · simp only [run_market_signal, hne, hri]
        exact ⟨fun _ => ⟨hv, hall⟩, fun _ => rfl⟩
      · simp [run_market_signal, hne, hri] at hb
    · have hri : (runLoop factory validate signal st
          signal.suggested_vendors).results.isEmpty = false := by
        simp [List.isEmpty_iff, hr]
      refine ⟨by simp [run_market_signal, hne, hri, hv], fun h => absurd h hv,
        ?_, fun b hb => ?_⟩
      · constructor
        · intro h
          simp [run_market_signal, hne, hri] at h
        · rintro ⟨-, hall⟩
          exfalso
          apply hr
          rw [hres]
          exact List.filterMap_eq_nil_iff.mpr (fun o ho => by simpa using hall o ho)
      · simp [run_market_signal, hne, hri] at hb
        subst hb
        exact ⟨hres, hr⟩

/-- Witness for C1: the empty batch triggers no pipeline invocation. -/
theorem C1_run_contract_witness :
    (run_market_signal okFactory someValidate sampleState emptySignal).trace = [] :=
  (C1_run_contract okFactory someValidate sampleState emptySignal).2.1 rfl

/-- C2: when the invocation of a vendor fails with the classified recoverable
provider error (a Google provider is configured and the message carries
the thought_signature/gemini marker), the orchestrator builds the fallback
configuration — identical to the current one except the thinking level is
cleared — instantiates a fresh capability from it, and retries the same
vendor exactly once (exactly 2 invocations); if the retry fails the vendor
is dropped, and the loop continues with the remaining vendors either
way. -/
theorem C2_recoverable_retry {σ φ : Type} (factory : GraphFactory σ)
    (validate : σ → Option φ) (signal : MarketSignal) (st : StrategyState)
    (vendor : SuggestedVendor) (msg : String)
    (hfail : factory st.settings.analysts st.settings.debug st.graphCfg vendor.name
      st.settings.analysis_date = Except.error msg)
    (hclass : (uses_google st.settings && is_google_thought_signature_error msg) = true)
    (hfresh : st.graphId < st.nextId) :
    ((processVendor factory validate signal st vendor).trace =
      [StrategyEv.propagateCall st.graphId st.graphCfg vendor.name
        st.settings.analysis_date,
       StrategyEv.factoryCall st.settings.analysts st.settings.debug
         (fallbackConfig st.config) st.nextId,
       StrategyEv.propagateCall st.nextId (fallbackConfig st.config) vendor.name
         st.settings.analysis_date]) ∧
    (((processVendor factory validate signal st vendor).trace.filter
        (fun e => e.isPropagate)).length = 2) ∧
    ((fallbackConfig st.config).google_thinking_level = none ∧
      (fallbackConfig st.config).defaults = st.config.defaults ∧
      (fallbackConfig st.config).llm_provider = st.config.llm_provider ∧
      (fallbackConfig st.config).backend_url = st.config.backend_url ∧
      (fallbackConfig st.config).quick_think_llm = st.config.quick_think_llm ∧
      (fallbackConfig st.config).deep_think_llm = st.config.deep_think_llm ∧
      (fallbackConfig st.config).openai_reasoning_effort =
        st.config.openai_reasoning_effort ∧
      (fallbackConfig st.config).max_debate_rounds = st.config.max_debate_rounds ∧
      (fallbackConfig st.config).max_risk_discuss_rounds =
        st.config.max_risk_discuss_rounds ∧
      (fallbackConfig st.config).quick_think_provider =
        st.config.quick_think_provider ∧
      (fallbackConfig st.config).quick_think_backend_url =
        st.config.quick_think_backend_url ∧
      (fallbackConfig st.config).deep_think_provider =
        st.config.deep_think_provider ∧
      (fallbackConfig st.config).deep_think_backend_url =
        st.config.deep_think_backend_url) ∧
    st.nextId ≠ st.graphId ∧
    (∀ err, factory st.settings.analysts st.settings.debug (fallbackConfig st.config)
        vendor.name st.settings.analysis_date = Except.error err →
      (processVendor factory validate signal st vendor).result = none) ∧
    (∀ rest, runLoop factory validate signal st (vendor :: rest) =
      { state := (runLoop factory validate signal
          (processVendor factory validate signal st vendor).state rest).state
        trace := (processVendor factory validate signal st vendor).trace ++
          (runLoop factory validate signal
            (processVendor factory validate signal st vendor).state rest).trace
        results :=
          match (processVendor factory validate signal st vendor).result with
          | some r => r :: (runLoop factory validate signal
              (processVendor factory validate signal st vendor).state rest).results
          | none => (runLoop factory validate signal
              (processVendor factory validate signal st vendor).state rest).results }) := by
  refine ⟨?_, ?_, ?_, ?_, ?_, ?_⟩
  · cases hretry : factory st.settings.analysts st.settings.debug
        { st.config with google_thinking_level := none } vendor.name
        st.settings.analysis_date <;>
      simp [processVendor, hfail, hclass, hretry, fallbackConfig]
  · cases hretry : factory st.settings.analysts st.settings.debug
        { st.config with google_thinking_level := none } vendor.name
        st.settings.analysis_date <;>
      simp [processVendor, hfail, hclass, hretry, fallbackConfig,
        StrategyEv.isPropagate]
  · simp [fallbackConfig]
  · omega
  · intro err hretry
    simp only [fallbackConfig] at hretry
    simp [processVendor, hfail, hclass, hretry]
  · intro rest
    rfl

/-- Witness for C2: the always-failing marker stand-in yields exactly two
invocations for the vendor and the vendor is dropped. -/
theorem C2_recoverable_retry_witness :
    (((processVendor markerFactory someValidate sampleSignal sampleState
        vendorA).trace.filter (fun e => e.isPropagate)).length = 2) ∧
    (processVendor markerFactory someValidate sampleSignal sampleState
        vendorA).result = none :=
  ⟨(C2_recoverable_retry markerFactory someValidate sampleSignal sampleState vendorA
      "Gemini API rejected thought_signature" rfl (by decide) (by decide)).2.1,
   (C2_recoverable_retry markerFactory someValidate sampleSignal sampleState vendorA
      "Gemini API rejected thought_signature" rfl (by decide) (by decide)).2.2.2.2.1
      "Gemini API rejected thought_signature" rfl⟩

/-- Counterexample to C3 as stated: with the always-failing marker
stand-in and two vendors, the fallback for vendor AAA replaces `self.config` and
`self.graph` (trading_strategy.py lines 259-264), so the first BBB
invocation (the 4th trace event) runs on capability instance 1 with the
fallback configuration — not on the original instance 0 with the original
configuration, which differs in its thinking level. -/
theorem C3_counterexample :
    (run_market_signal markerFactory someValidate sampleState sampleSignal).trace =
      [StrategyEv.propagateCall 0 cfg0 "AAA" "2026-01-01",
       StrategyEv.factoryCall ["market"] false (fallbackConfig cfg0) 1,
       StrategyEv.propagateCall 1 (fallbackConfig cfg0) "AAA" "2026-01-01",
       StrategyEv.propagateCall 1 (fallbackConfig cfg0) "BBB" "2026-01-01",
       StrategyEv.factoryCall ["market"] false (fallbackConfig cfg0) 2,
       StrategyEv.propagateCall 2 (fallbackConfig cfg0) "BBB" "2026-01-01"] ∧
    fallbackConfig cfg0 ≠ cfg0 := by
  exact ⟨by decide, by decide⟩

/-- C3 (amended): a fallback never mutates the original configuration
value (it installs a fresh copy) and is the only way the orchestrator
state changes: entities whose processing does not hit the recoverable
error leave the shared state untouched, while a fallback replaces the
shared configuration and capability, which the following entities of the
batch then use. -/
theorem C3_fallback_state_evolution {σ φ : Type} (factory : GraphFactory σ)
    (validate : σ → Option φ) (signal : MarketSignal) (st : StrategyState)
    (vendor : SuggestedVendor) :
    (∀ p, factory st.settings.analysts st.settings.debug st.graphCfg vendor.name
        st.settings.analysis_date = Except.ok p →
      (processVendor factory validate signal st vendor).state = st) ∧
    (∀ msg, factory st.settings.analysts st.settings.debug st.graphCfg vendor.name
        st.settings.analysis_date = Except.error msg →
      (uses_google st.settings && is_google_thought_signature_error msg) = false →
      (processVendor factory validate signal st vendor).state = st) ∧
    (∀ msg, factory st.settings.analysts st.settings.debug st.graphCfg vendor.name
        st.settings.analysis_date = Except.error msg →
      (uses_google st.settings && is_google_thought_signature_error msg) = true →
      (processVendor factory validate signal st vendor).state =
        { st with config := fallbackConfig st.config
                  graphId := st.nextId
                  graphCfg := fallbackConfig st.config
                  nextId := st.nextId + 1 }) := by
  refine ⟨?_, ?_, ?_⟩
  · intro p hp
    simp [processVendor, hp]
  · intro msg hm hc
    simp [processVendor, hm, hc]
  · intro msg hm hc
    cases hretry : factory st.settings.analysts st.settings.debug
        { st.config with google_thinking_level := none } vendor.name
        st.settings.analysis_date <;>
      simp [processVendor, hm, hc, hretry, fallbackConfig]

/-- Witness for the amended C3: a successful entity leaves the shared
state untouched. -/
theorem C3_fallback_state_evolution_witness :
    (processVendor okFactory someValidate sampleSignal sampleState vendorA).state =
      sampleState :=
  (C3_fallback_state_evolution okFactory someValidate sampleSignal sampleState
    vendorA).1 ((), "buy") rfl

/-- Counterexample to C4 as stated: with an all-succeeding stand-in and
two vendors, `run_market_signal` performs no factory call at all — the one
capability instance created at construction (`__init__`, one factory call)
is shared by both entities (both propagate events carry instance id 0) —
so the factory is invoked once in total, not once per entity. -/
theorem C4_counterexample :
    ((run_market_signal okFactory someValidate sampleState sampleSignal).trace.filter
      (fun e => e.isFactory)).length = 0 ∧
    ((strategyInit [] sampleSettings).2.filter (fun e => e.isFactory)).length = 1 ∧
    (run_market_signal okFactory someValidate sampleState sampleSignal).trace =
      [StrategyEv.propagateCall 0 cfg0 "AAA" "2026-01-01",
       StrategyEv.propagateCall 0 cfg0 "BBB" "2026-01-01"] ∧
    (1 : ℕ) ≠ 2 := by
  exact ⟨by decide, by decide, by decide, by decide⟩

/-- C4 (amended): a single capability instance is created from the
configuration by one factory call at strategy construction; during a run
in which no invocation fails, the factory is never called again and every
entity is invoked on that one shared instance, built from the shared
configuration. -/
theorem C4_shared_capability {σ φ : Type} (factory : GraphFactory σ)
    (validate : σ → Option φ) (st : StrategyState) (signal : MarketSignal)
    (dflt : List (String × String)) (settings : StrategySettings)
    (hok : ∀ a d c t1 t2, ∃ p, factory a d c t1 t2 = Except.ok p) :
    (strategyInit dflt settings).2 =
      [StrategyEv.factoryCall settings.analysts settings.debug
        (build_runtime_config dflt settings) 0] ∧
    ((run_market_signal factory validate st signal).trace.filter
      (fun e => e.isFactory)) = [] ∧
    (run_market_signal factory validate st signal).trace =
      signal.suggested_vendors.map (fun v => StrategyEv.propagateCall st.graphId
        st.graphCfg v.name st.settings.analysis_date) := by
  have htrace : (run_market_signal factory validate st signal).trace =
      signal.suggested_vendors.map (fun v => StrategyEv.propagateCall st.graphId
        st.graphCfg v.name st.settings.analysis_date) := by
    by_cases hv : signal.suggested_vendors = []
    · simp [run_market_signal, hv]
    · have hne : signal.suggested_vendors.isEmpty = false := by
        simpa [List.isEmpty_iff] using hv
      have hloop := runLoop_all_ok factory validate signal st
        signal.suggested_vendors hok
      cases hri : (runLoop factory validate signal st
          signal.suggested_vendors).results.isEmpty <;>
        simp [run_market_signal, hne, hri, hloop.1]
  refine ⟨rfl, ?_, htrace⟩
  rw [htrace, List.filter_eq_nil_iff]
  intro e he
  obtain ⟨v, hvmem, rfl⟩ := List.mem_map.mp he
  simp [StrategyEv.isFactory]

/-- Witness for the amended C4: the all-succeeding two-vendor run performs
no factory call. -/
theorem C4_shared_capability_witness :
    ((run_market_signal okFactory someValidate sampleState sampleSignal).trace.filter
      (fun e => e.isFactory)) = [] :=
  (C4_shared_capability okFactory someValidate sampleState sampleSignal []
    sampleSettings (fun _ _ _ _ _ => ⟨((), "buy"), rfl⟩)).2.1

/-- C9: the orchestrator processes entities strictly in input order (it is
a sequential loop — effective parallelism 1), and with a deterministic
always-succeeding stand-in capability the returned batch lists one record
per entity in that same input order. -/
theorem C9_sequential_input_order {σ φ : Type} (factory : GraphFactory σ)
    (validate : σ → Option φ) (st : StrategyState) (signal : MarketSignal)
    (hok : ∀ a d c t1 t2, ∃ p, factory a d c t1 t2 = Except.ok p)
    (hval : ∀ x : σ, (validate x).isSome)
    (hne : signal.suggested_vendors ≠ []) :
    (run_market_signal factory validate st signal).trace =
      signal.suggested_vendors.map (fun v => StrategyEv.propagateCall st.graphId
        st.graphCfg v.name st.settings.analysis_date) ∧
    ∃ b, (run_market_signal factory validate st signal).outcome = Except.ok b ∧
      b.results.map (fun r => r.ticker) =
        signal.suggested_vendors.map (fun v => v.name) := by
  have hne' : signal.suggested_vendors.isEmpty = false := by
    simpa [List.isEmpty_iff] using hne
  have hloop := runLoop_all_ok factory validate signal st signal.suggested_vendors hok
  have hresults := runLoop_ok_results factory validate signal st
    signal.suggested_vendors hok hval
  have hrne : (runLoop factory validate signal st signal.suggested_vendors).results
      ≠ [] := by
    intro h
    rw [h] at hresults
    exact hne (List.map_eq_nil_iff.mp hresults.symm)
  have hri : (runLoop factory validate signal st
      signal.suggested_vendors).results.isEmpty = false := by
    simp [List.isEmpty_iff, hrne]
  refine ⟨by simp [run_market_signal, hne', hri, hloop.1], ?_⟩
  cases hout : (run_market_signal factory validate st signal).outcome with
  | error e =>
      exfalso
      simp [run_market_signal, hne', hri] at hout
  | ok b =>
      refine ⟨b, rfl, ?_⟩
      simp [run_market_signal, hne', hri] at hout
      subst hout
      exact hresults

/-- Witness for C9 on the all-succeeding two-vendor sample. -/
theorem C9_sequential_input_order_witness :
    (run_market_signal okFactory someValidate sampleState sampleSignal).trace =
      sampleSignal.suggested_vendors.map (fun v => StrategyEv.propagateCall
        sampleState.graphId sampleState.graphCfg v.name
        sampleState.settings.analysis_date) ∧
    ∃ b, (run_market_signal okFactory someValidate sampleState sampleSignal).outcome =
        Except.ok b ∧
      b.results.map (fun r => r.ticker) =
        sampleSignal.suggested_vendors.map (fun v => v.name) :=
  C9_sequential_input_order okFactory someValidate sampleState sampleSignal
    (fun _ _ _ _ _ => ⟨((), "buy"), rfl⟩) (fun _ => rfl) (by decide)

end AAQ
